import Mathlib

/-
Verification development for the REanna Router repository.

The definitions below are shallow embeddings of:
  app/utils/circuit_breaker.py   (CircuitBreaker)
  app/utils/monitoring.py        (ApiCallStats, CircuitBreakerStats, ApiMonitor)
  app/utils/alert_manager.py     (AlertManager and friends)
  app/services/rollout_client.py (RolloutClient.call_mcp_tool, breaker wiring)

Modelling conventions:
  - wall-clock instants and durations (time.time, datetime.utcnow, response
    times) are modelled as integers with exact arithmetic;
  - Python dictionaries keyed by strings are modelled as total functions with
    the dataclass default as the value for absent keys, or as Option-valued
    functions where the code distinguishes presence;
  - the asyncio/threading locks only serialise the operations, so each
    operation is modelled as a pure state-to-state function;
  - logging calls have no observable effect on any state the claims mention
    and are dropped;
  - track_circuit_breaker writes only to the global ApiMonitor, never back
    into the breaker, so the breaker operations are functions on the breaker
    state alone.
-/

/-! ### Exception classes (rollout_client.py lines 33-51, plus builtins)

Python exception classes relevant to the breakers, with their inheritance
chain.  An exception instance is identified by its exact class; isinstance
checks membership of the tested class among the ancestors of the exact
class. -/

inductive ErrClass where
  | exceptionC
  | rolloutErrorC
  | rolloutAuthErrorC
  | rolloutRateLimitErrorC
  | rolloutServerErrorC
  | rolloutCircuitOpenErrorC
  | valueErrorC
  deriving DecidableEq, Repr

/-- Ancestor chain (self first) of each class: the four specific Rollout
errors derive RolloutError, which derives Exception; ValueError derives
Exception. -/
def ErrClass.ancestors : ErrClass → List ErrClass
  | .exceptionC => [.exceptionC]
  | .rolloutErrorC => [.rolloutErrorC, .exceptionC]
  | .rolloutAuthErrorC => [.rolloutAuthErrorC, .rolloutErrorC, .exceptionC]
  | .rolloutRateLimitErrorC => [.rolloutRateLimitErrorC, .rolloutErrorC, .exceptionC]
  | .rolloutServerErrorC => [.rolloutServerErrorC, .rolloutErrorC, .exceptionC]
  | .rolloutCircuitOpenErrorC => [.rolloutCircuitOpenErrorC, .rolloutErrorC, .exceptionC]
  | .valueErrorC => [.valueErrorC, .exceptionC]

/-- Python isinstance(e, c) for an instance whose exact class is e. -/
def isInstanceOf (e c : ErrClass) : Bool :=
  c ∈ e.ancestors

/-! ### CircuitBreaker (circuit_breaker.py) -/

/-- CircuitState enum, circuit_breaker.py lines 20-24. -/
inductive CircuitState where
  | CLOSED
  | OPEN
  | HALF_OPEN
  deriving DecidableEq, Repr

/-- State of a CircuitBreaker object: the constructor parameters and the
mutable fields set in __init__ (circuit_breaker.py lines 41-68). -/
structure CircuitBreaker where
  name : String
  failure_threshold : Nat
  recovery_timeout : Int
  half_open_max_calls : Nat
  excluded_exceptions : List ErrClass
  state : CircuitState
  failures : Nat
  last_failure_time : Int
  successful_half_open_calls : Nat
  half_open_calls_in_progress : Nat
  deriving DecidableEq, Repr

/-- CircuitBreaker.__init__: fresh breaker in the CLOSED state. -/
def mkCircuitBreaker (name : String) (failure_threshold : Nat)
    (recovery_timeout : Int) (half_open_max_calls : Nat)
    (excluded_exceptions : List ErrClass) : CircuitBreaker :=
  { name := name
    failure_threshold := failure_threshold
    recovery_timeout := recovery_timeout
    half_open_max_calls := half_open_max_calls
    excluded_exceptions := excluded_exceptions
    state := .CLOSED
    failures := 0
    last_failure_time := 0
    successful_half_open_calls := 0
    half_open_calls_in_progress := 0 }

/-- CircuitBreaker.record_success, circuit_breaker.py lines 80-102. -/
def CircuitBreaker.record_success (b : CircuitBreaker) : CircuitBreaker :=
  match b.state with
  | .HALF_OPEN =>
    let b := { b with successful_half_open_calls := b.successful_half_open_calls + 1 }
    if b.half_open_max_calls ≤ b.successful_half_open_calls then
      { b with state := .CLOSED, failures := 0, successful_half_open_calls := 0,
               half_open_calls_in_progress := 0 }
    else b
  | .CLOSED => { b with failures := 0 }
  | .OPEN => b

/-- CircuitBreaker.record_failure, circuit_breaker.py lines 104-142.
The argument is the exact class of the exception, or none when the Python
caller passes exception=None.  The guard on line 113 returns before any
state is touched when the exception is an instance of an excluded class. -/
def CircuitBreaker.record_failure (b : CircuitBreaker) (exception : Option ErrClass)
    (now : Int) : CircuitBreaker :=
  if (match exception with
      | some e => b.excluded_exceptions.any (fun c => isInstanceOf e c)
      | none => false) then
    b
  else
    match b.state with
    | .CLOSED =>
      let b := { b with failures := b.failures + 1, last_failure_time := now }
      if b.failure_threshold ≤ b.failures then
        { b with state := .OPEN }
      else b
    | .HALF_OPEN =>
      { b with state := .OPEN, last_failure_time := now,
               successful_half_open_calls := 0, half_open_calls_in_progress := 0 }
    | .OPEN => b

/-- CircuitBreaker.allow_request, circuit_breaker.py lines 144-191.
Returns the boolean result together with the updated breaker. -/
def CircuitBreaker.allow_request (b : CircuitBreaker) (now : Int) :
    Bool × CircuitBreaker :=
  match b.state with
  | .CLOSED => (true, b)
  | .OPEN =>
    if b.recovery_timeout ≤ now - b.last_failure_time then
      (true, { b with state := .HALF_OPEN, successful_half_open_calls := 0,
                      half_open_calls_in_progress := 0 })
    else
      (false, b)
  | .HALF_OPEN =>
    if b.half_open_calls_in_progress < b.half_open_max_calls then
      (true, { b with half_open_calls_in_progress := b.half_open_calls_in_progress + 1 })
    else
      (false, b)

/-- The three breaker operations as a single step relation, used to state
invariants over every operation. -/
inductive BreakerStep where
  | success
  | failure (exception : Option ErrClass)
  | allow
  deriving DecidableEq, Repr

def CircuitBreaker.step (b : CircuitBreaker) : BreakerStep → Int → CircuitBreaker
  | .success, _ => b.record_success
  | .failure e, now => b.record_failure e now
  | .allow, now => (b.allow_request now).2

/-! ### RolloutClient.call_mcp_tool (rollout_client.py lines 291-383)

Net effect of one call on the MCP circuit breaker.  The simulated tool
dispatch is deterministic: the six known tool names succeed on the first
attempt; any other name raises ValueError on every attempt.

Control flow of the blocked path: when allow_request returns False the code
raises RolloutCircuitOpenError (line 311).  The inner handler on line 315
catches only CircuitBreakerOpenError, which is a different class, so the
exception reaches the outer `except Exception` on line 379, which calls
record_failure with it (line 381) before re-raising.

Control flow of the unknown-tool path: ValueError is raised on every
attempt; after MAX_RETRIES the loop records a failure (line 375) and
re-raises, and the outer handler records the same exception a second time
(line 381). -/

def knownMcpTool (tool_name : String) : Bool :=
  tool_name ∈ ["configure_rollout", "list_available_crms", "configure_crm_connection",
               "sync_tour_data", "sync_feedback_data", "create_automation"]

/-- Result of call_mcp_tool as seen by the caller: true when the tool call
returned a value, false when an exception propagated. -/
def callMcpTool (b : CircuitBreaker) (now : Int) (tool_name : String) :
    Bool × CircuitBreaker :=
  let (allowed, b) := b.allow_request now
  if !allowed then
    (false, b.record_failure (some .rolloutCircuitOpenErrorC) now)
  else if knownMcpTool tool_name then
    (true, b.record_success)
  else
    let b := b.record_failure (some .valueErrorC) now
    (false, b.record_failure (some .valueErrorC) now)

/-- The MCP breaker as wired in RolloutClient.__init__ (rollout_client.py
line 72): threshold 5, recovery 120, default half_open_max_calls 1, no
excluded exceptions. -/
def mcpCircuit : CircuitBreaker := mkCircuitBreaker "rollout-mcp" 5 120 1 []

/-- The API breaker as wired in RolloutClient.__init__ (rollout_client.py
lines 66-71): threshold 3, recovery 60, rate-limit errors excluded. -/
def apiCircuit : CircuitBreaker :=
  mkCircuitBreaker "rollout-api" 3 60 1 [.rolloutRateLimitErrorC]

/-! ### Monitoring (monitoring.py) -/

/-- ApiCallStats dataclass, monitoring.py lines 33-43.  Response times are
modelled with exact integer arithmetic; last_called holds the instant of the
latest call, none before the first call. -/
structure ApiCallStats where
  endpoint : String
  success_count : Nat
  error_count : Nat
  retry_count : Nat
  total_response_time : Int
  response_times : List Int
  rate_limit_hits : Nat
  last_called : Option Int
  deriving DecidableEq, Repr

/-- Dataclass defaults of ApiCallStats. -/
def initApiCallStats (endpoint : String) : ApiCallStats :=
  { endpoint := endpoint
    success_count := 0
    error_count := 0
    retry_count := 0
    total_response_time := 0
    response_times := []
    rate_limit_hits := 0
    last_called := none }

/-- ApiCallStats.add_response_time, monitoring.py lines 64-72: append the
measurement, add it to the running total, and when the window now exceeds
1000 entries pop the oldest entry and subtract it from the total. -/
def ApiCallStats.add_response_time (s : ApiCallStats) (response_time : Int) :
    ApiCallStats :=
  let s := { s with response_times := s.response_times ++ [response_time],
                    total_response_time := s.total_response_time + response_time }
  if 1000 < s.response_times.length then
    match s.response_times with
    | [] => s
    | removed :: rest =>
      { s with response_times := rest,
               total_response_time := s.total_response_time - removed }
  else s

/-- Folding add_response_time over a list of measurements. -/
def ApiCallStats.recordTimes (s : ApiCallStats) (xs : List Int) : ApiCallStats :=
  xs.foldl ApiCallStats.add_response_time s

/-- CircuitBreakerStats dataclass, monitoring.py lines 85-96.  The two
duration fields default to timedelta(0). -/
structure CircuitBreakerStats where
  name : String
  current_state : String
  failure_count : Nat
  state_change_count : Nat
  last_state_change : Option Int
  last_failure : Option Int
  last_success : Option Int
  open_duration : Int
  total_open_time : Int
  deriving DecidableEq, Repr

/-- Dataclass defaults of CircuitBreakerStats. -/
def initCircuitBreakerStats (name : String) : CircuitBreakerStats :=
  { name := name
    current_state := "CLOSED"
    failure_count := 0
    state_change_count := 0
    last_state_change := none
    last_failure := none
    last_success := none
    open_duration := 0
    total_open_time := 0 }

/-- ApiMonitor state, monitoring.py lines 107-111: the per-endpoint and
per-breaker dictionaries (rate-limit stats are not needed by any claim). -/
structure ApiMonitor where
  api_stats : String → Option ApiCallStats
  circuit_stats : String → Option CircuitBreakerStats

def emptyApiMonitor : ApiMonitor :=
  { api_stats := fun _ => none, circuit_stats := fun _ => none }

/-- ApiMonitor.record_api_call, monitoring.py lines 113-136: insert a fresh
entry when the endpoint is unknown, then increment the success counter and
append the response time on success, or increment the error counter on
failure; always accumulate retries and stamp last_called. -/
def ApiMonitor.record_api_call (m : ApiMonitor) (endpoint : String)
    (success : Bool) (response_time : Int) (retries : Nat) (now : Int) :
    ApiMonitor :=
  let stats := (m.api_stats endpoint).getD (initApiCallStats endpoint)
  let stats :=
    if success then
      let stats := { stats with success_count := stats.success_count + 1 }
      stats.add_response_time response_time
    else
      { stats with error_count := stats.error_count + 1 }
  let stats := { stats with retry_count := stats.retry_count + retries,
                            last_called := some now }
  { m with api_stats := fun e => if e = endpoint then some stats else m.api_stats e }

/-- ApiMonitor.record_circuit_state, monitoring.py lines 163-202, translated
statement by statement.  Note the order on lines 186-194: on a state change
the code first overwrites stats.last_state_change with now (line 188) and
only then computes `now - stats.last_state_change` (line 192), so the
subtraction always reads the value written on line 188. -/
def ApiMonitor.record_circuit_state (m : ApiMonitor) (name state : String)
    (failure_count : Nat) (now : Int) : ApiMonitor :=
  let stats := (m.circuit_stats name).getD (initCircuitBreakerStats name)
  let old_state := stats.current_state
  let stats := { stats with failure_count := failure_count }
  let stats :=
    if old_state ≠ state then
      let stats := { stats with state_change_count := stats.state_change_count + 1,
                                last_state_change := some now }
      if old_state = "OPEN" then
        match stats.last_state_change with
        | some t =>
          { stats with open_duration := now - t,
                       total_open_time := stats.total_open_time + (now - t) }
        | none => stats
      else stats
    else stats
  let stats := { stats with current_state := state }
  let stats :=
    if state = "OPEN" ∧ old_state ≠ "OPEN" then
      { stats with last_failure := some now }
    else if state = "CLOSED" ∧ old_state ≠ "CLOSED" then
      { stats with last_success := some now }
    else stats
  { m with circuit_stats := fun n => if n = name then some stats else m.circuit_stats n }

/-! ### AlertManager (alert_manager.py) -/

/-- AlertLevel enum, alert_manager.py lines 22-27. -/
inductive AlertLevel where
  | INFO
  | WARNING
  | ERROR
  | CRITICAL
  deriving DecidableEq, Repr

/-- AlertType enum, alert_manager.py lines 29-36. -/
inductive AlertType where
  | REPEATED_SYNC_FAILURE
  | CIRCUIT_BREAKER_OPEN
  | RATE_LIMIT_CRITICAL
  | AUTH_FAILURE
  | INTEGRATION_ERROR
  | HEALTH_CHECK
  deriving DecidableEq, Repr

/-- The .value string of each AlertType member. -/
def AlertType.value : AlertType → String
  | .REPEATED_SYNC_FAILURE => "REPEATED_SYNC_FAILURE"
  | .CIRCUIT_BREAKER_OPEN => "CIRCUIT_BREAKER_OPEN"
  | .RATE_LIMIT_CRITICAL => "RATE_LIMIT_CRITICAL"
  | .AUTH_FAILURE => "AUTH_FAILURE"
  | .INTEGRATION_ERROR => "INTEGRATION_ERROR"
  | .HEALTH_CHECK => "HEALTH_CHECK"

/-- AlertMethod enum, alert_manager.py lines 38-43. -/
inductive AlertMethod where
  | LOG
  | EMAIL
  | WEBHOOK
  | SLACK
  deriving DecidableEq, Repr

/-- AlertConfig pydantic model, alert_manager.py lines 45-54. -/
structure AlertConfig where
  enabled : Bool
  type : AlertType
  level : AlertLevel
  threshold : Nat
  window_minutes : Nat
  methods : List AlertMethod
  recipients : List String
  cooldown_minutes : Nat
  deriving DecidableEq, Repr

/-- AlertEvent pydantic model, alert_manager.py lines 56-66.  The details
dictionary is modelled as a string association list. -/
structure AlertEvent where
  id : String
  type : AlertType
  level : AlertLevel
  message : String
  details : List (String × String)
  timestamp : Int
  entity_id : Option String
  entity_type : Option String
  operation_ids : List String
  deriving DecidableEq, Repr

/-- AlertManager mutable state, alert_manager.py lines 99-125: the config
dictionary and the three failure/cooldown tracking dictionaries.  The
nested dictionaries are total functions returning the value the code
installs on first touch (0, the empty list) or an Option where the code
tests membership (the cooldown stamps, keyed by AlertType.value). -/
structure AlertManager where
  configs : AlertType → Option AlertConfig
  failure_counts : String → String → Nat
  failure_timestamps : String → String → List Int
  alerted_entities : String → String → Option Int

/-- Point update of a two-level dictionary. -/
def upd2 {α : Type} (f : String → String → α) (k1 k2 : String) (v : α) :
    String → String → α :=
  fun a b => if a = k1 ∧ b = k2 then v else f a b

/-- AlertManager._setup_default_configs, alert_manager.py lines 127-181.
Fields not listed there keep the pydantic field defaults (enabled true,
cooldown_minutes 30). -/
def defaultAlertConfigs : AlertType → Option AlertConfig
  | .REPEATED_SYNC_FAILURE => some
    { enabled := true, type := .REPEATED_SYNC_FAILURE, level := .ERROR,
      threshold := 3, window_minutes := 60, methods := [.LOG, .EMAIL],
      recipients := [], cooldown_minutes := 30 }
  | .CIRCUIT_BREAKER_OPEN => some
    { enabled := true, type := .CIRCUIT_BREAKER_OPEN, level := .ERROR,
      threshold := 1, window_minutes := 30, methods := [.LOG, .EMAIL],
      recipients := [], cooldown_minutes := 30 }
  | .RATE_LIMIT_CRITICAL => some
    { enabled := true, type := .RATE_LIMIT_CRITICAL, level := .WARNING,
      threshold := 2, window_minutes := 30, methods := [.LOG],
      recipients := [], cooldown_minutes := 30 }
  | .AUTH_FAILURE => some
    { enabled := true, type := .AUTH_FAILURE, level := .CRITICAL,
      threshold := 2, window_minutes := 30, methods := [.LOG, .EMAIL],
      recipients := [], cooldown_minutes := 30 }
  | .INTEGRATION_ERROR => some
    { enabled := true, type := .INTEGRATION_ERROR, level := .WARNING,
      threshold := 5, window_minutes := 60, methods := [.LOG],
      recipients := [], cooldown_minutes := 30 }
  | .HEALTH_CHECK => some
    { enabled := true, type := .HEALTH_CHECK, level := .INFO,
      threshold := 1, window_minutes := 1440, methods := [.LOG],
      recipients := [], cooldown_minutes := 30 }

/-- AlertManager.__init__ with the default configs and empty tracking. -/
def mkAlertManager : AlertManager :=
  { configs := defaultAlertConfigs
    failure_counts := fun _ _ => 0
    failure_timestamps := fun _ _ => []
    alerted_entities := fun _ _ => none }

/-- AlertManager.update_config, alert_manager.py lines 204-219: replace the
config for an alert type, refusing a config whose type field differs. -/
def AlertManager.update_config (mgr : AlertManager) (alert_type : AlertType)
    (config : AlertConfig) : Bool × AlertManager :=
  if config.type ≠ alert_type then (false, mgr)
  else
    (true, { mgr with configs := fun t =>
      if t = alert_type then some config else mgr.configs t })

/-- Whether the first list starts with the second one. -/
def startsWithChars : List Char → List Char → Bool
  | _, [] => true
  | [], _ :: _ => false
  | c :: s, p :: ps => c == p && startsWithChars s ps

/-- Python substring containment `pat in s` on character lists. -/
def containsChars : List Char → List Char → Bool
  | [], pat => pat.isEmpty
  | c :: rest, pat => startsWithChars (c :: rest) pat || containsChars rest pat

/-- AlertManager._determine_alert_type, alert_manager.py lines 311-330:
classify the error message by substring tests on its lowercase form. -/
def determine_alert_type (error : String) : AlertType :=
  let error_lower := error.toList.map Char.toLower
  if containsChars error_lower "circuit".toList && containsChars error_lower "open".toList then
    .CIRCUIT_BREAKER_OPEN
  else if containsChars error_lower "rate limit".toList then
    .RATE_LIMIT_CRITICAL
  else if containsChars error_lower "auth".toList || containsChars error_lower "token".toList
      || containsChars error_lower "credentials".toList then
    .AUTH_FAILURE
  else
    .REPEATED_SYNC_FAILURE

/-- AlertManager._is_in_cooldown, alert_manager.py lines 332-355.  The
source indexes self._configs[alert_type] directly; every caller has already
checked that the config exists, so the none branch is unreachable. -/
def AlertManager.is_in_cooldown (mgr : AlertManager) (entity_id : String)
    (alert_type : AlertType) (now : Int) : Bool :=
  match mgr.alerted_entities entity_id alert_type.value with
  | none => false
  | some last_alert =>
    match mgr.configs alert_type with
    | some config => decide (now - last_alert < (config.cooldown_minutes : Int) * 60)
    | none => false

/-- AlertManager._check_threshold_exceeded, alert_manager.py lines 357-382:
keep only the timestamps inside the window (this prunes the stored list)
and compare their number against the threshold. -/
def AlertManager.check_threshold_exceeded (mgr : AlertManager)
    (entity_id operation_type : String) (config : AlertConfig) (now : Int) :
    Bool × AlertManager :=
  let window_start := now - (config.window_minutes : Int) * 60
  let recent_failures :=
    (mgr.failure_timestamps entity_id operation_type).filter
      (fun ts => window_start ≤ ts)
  let mgr := { mgr with
    failure_timestamps :=
      upd2 mgr.failure_timestamps entity_id operation_type recent_failures }
  (decide (config.threshold ≤ recent_failures.length), mgr)

/-- The _alert_handlers dictionary built in __init__ (alert_manager.py
lines 120-125) contains an entry for every AlertMethod, so the lookup
handlers.get(method) on line 433 always finds a handler. -/
def alertHandlerPresent : AlertMethod → Bool := fun _ => true

/-- Ambient transport outcomes of the delivery handlers: whether the SMTP
session of _send_email_alert (alert_manager.py lines 503-512), the HTTP
post of _send_webhook_alert (lines 544-551) and the HTTP post of
_send_slack_alert (lines 619-625) raise when executed. -/
structure DeliveryEnv where
  smtp_send_fails : Bool
  webhook_post_fails : Bool
  slack_post_fails : Bool
  deriving DecidableEq, Repr

/-- Whether the handler of each method raises when invoked with the given
recipients, derived from the handler bodies:
  - _send_log_alert (lines 443-463) only logs and never raises;
  - _send_email_alert (lines 465-516) returns at the empty-recipients guard
    on lines 473-475 without raising; with recipients, its except block on
    lines 514-516 logs and re-raises any SMTP failure;
  - _send_webhook_alert (lines 518-555) posts to the recipients or to the
    default url and its except block on lines 553-555 re-raises a failed
    post;
  - _send_slack_alert (lines 557-629) posts once to the configured Slack
    webhook and its except block on lines 627-629 re-raises a failed post.
These are exactly the delivery failures the source can produce. -/
def handlerRaises (env : DeliveryEnv) (recipients : List String) :
    AlertMethod → Bool
  | .LOG => false
  | .EMAIL => !recipients.isEmpty && env.smtp_send_fails
  | .WEBHOOK => env.webhook_post_fails
  | .SLACK => env.slack_post_fails

/-- Everything _generate_and_send_alert produces: its return value, the
updated manager, the event it built, and the delivery handlers it invoked
(in order). -/
structure AlertOutcome where
  success : Bool
  mgr : AlertManager
  event : AlertEvent
  invoked : List AlertMethod

/-- AlertManager._generate_and_send_alert, alert_manager.py lines 384-441.

Parameters standing for ambient effects:
  - import_time: pydantic evaluates the AlertEvent.timestamp default
    expression datetime.utcnow() once, when the class body on line 63 is
    executed at import time; every construction that does not pass a
    timestamp receives this same value.  The event built on lines 412-421
    passes no timestamp.
  - fails: which delivery handler invocations (line 436) raise; a raised
    handler is caught on line 437, sets success to False and the loop
    continues with the next method.  The instantiations realizable from the
    handler bodies are those of the form handlerRaises env config.recipients
    (LOG never raises, EMAIL returns early on empty recipients, and the
    SMTP, webhook and Slack sends re-raise their transport errors); the
    claims about realized traces use exactly that instantiation.
  - new_id: the uuid4 string of line 413.
  - now: datetime.utcnow() at call time, stored in the cooldown tracker on
    line 427.

The source reads config from self._configs[alert_type]; the caller passes
the config it already looked up, which is identical because the dictionary
is not modified in between. -/
def AlertManager.generate_and_send_alert (mgr : AlertManager)
    (import_time : Int) (fails : AlertMethod → Bool) (config : AlertConfig)
    (alert_type : AlertType) (entity_id entity_type operation_type : String)
    (error : String) (operation_id : String) (details : List (String × String))
    (new_id : String) (now : Int) : AlertOutcome :=
  let event : AlertEvent :=
    { id := new_id
      type := alert_type
      level := config.level
      message := "Repeated " ++ operation_type ++ " failures for " ++ entity_type
        ++ " " ++ entity_id ++ ": " ++ error
      details := details
      timestamp := import_time
      entity_id := some entity_id
      entity_type := some entity_type
      operation_ids := [operation_id] }
  let mgr := { mgr with
    alerted_entities :=
      upd2 mgr.alerted_entities entity_id alert_type.value now }
  let sendResult := config.methods.foldl
    (fun (acc : Bool × List AlertMethod) method =>
      if alertHandlerPresent method then
        (if fails method then false else acc.1, acc.2 ++ [method])
      else acc)
    (true, [])
  { success := sendResult.1, mgr := mgr, event := event, invoked := sendResult.2 }

/-- AlertManager.record_operation_failure, alert_manager.py lines 248-309:
record the failure, classify it, then run the config/cooldown/threshold
gauntlet and send the alert when everything allows it. -/
def AlertManager.record_operation_failure (mgr : AlertManager)
    (import_time : Int) (fails : AlertMethod → Bool)
    (entity_id entity_type operation_type : String) (error : String)
    (operation_id : String) (details : List (String × String))
    (new_id : String) (now : Int) : Bool × AlertManager :=
  let mgr := { mgr with
    failure_counts := upd2 mgr.failure_counts entity_id operation_type
      (mgr.failure_counts entity_id operation_type + 1)
    failure_timestamps := upd2 mgr.failure_timestamps entity_id operation_type
      (mgr.failure_timestamps entity_id operation_type ++ [now]) }
  let alert_type := determine_alert_type error
  match mgr.configs alert_type with
  | none => (false, mgr)
  | some config =>
    if !config.enabled then (false, mgr)
    else if mgr.is_in_cooldown entity_id alert_type now then (false, mgr)
    else
      let res := mgr.check_threshold_exceeded entity_id operation_type config now
      if res.1 then
        let out := res.2.generate_and_send_alert import_time fails config alert_type
          entity_id entity_type operation_type error operation_id details new_id now
        (out.success, out.mgr)
      else (false, res.2)

/-! ### Claim theorems -/

/-- C1: for a CircuitBreaker with failure_threshold 3, recovery_timeout 10s,
half_open_max_calls 2 and no excluded error kinds, three consecutive
record_failure(ServerError) calls open the circuit; allow_request
immediately afterwards returns false; allow_request 11 seconds after the
last failure returns true and moves the state to HALF_OPEN; two
record_success calls then close the circuit with failure count 0. -/
theorem circuit_breaker_concrete_scenario :
    let b0 : CircuitBreaker := mkCircuitBreaker "cb" 3 10 2 []
    let b3 : CircuitBreaker := CircuitBreaker.record_failure
      (CircuitBreaker.record_failure
        (CircuitBreaker.record_failure b0 (some .rolloutServerErrorC) 0)
        (some .rolloutServerErrorC) 0)
      (some .rolloutServerErrorC) 0
    let bh : CircuitBreaker := (CircuitBreaker.allow_request b3 11).2
    b3.state = .OPEN ∧
    CircuitBreaker.allow_request b3 0 = (false, b3) ∧
    (CircuitBreaker.allow_request b3 11).1 = true ∧
    bh.state = .HALF_OPEN ∧
    (CircuitBreaker.record_success (CircuitBreaker.record_success bh)).state
      = .CLOSED ∧
    (CircuitBreaker.record_success (CircuitBreaker.record_success bh)).failures
      = 0 := by
  decide

/-- C3: for every error class listed in the breaker's excluded_exceptions,
record_failure with an instance of that class is a complete no-op on the
breaker state, whatever state it is in. -/
theorem record_failure_excluded_noop (b : CircuitBreaker) (e : ErrClass)
    (now : Int) (h : e ∈ b.excluded_exceptions) :
    b.record_failure (some e) now = b := by
  have hself : isInstanceOf e e = true := by cases e <;> decide
  have hany : b.excluded_exceptions.any (fun c => isInstanceOf e c) = true :=
    List.any_eq_true.mpr ⟨e, h, hself⟩
  unfold CircuitBreaker.record_failure
  simp [hany]

/-- Witness for C3: the rollout-api breaker excludes rate-limit errors, and
record_failure with a rate-limit error leaves it untouched. -/
theorem record_failure_excluded_noop_witness :
    ErrClass.rolloutRateLimitErrorC ∈ apiCircuit.excluded_exceptions ∧
    apiCircuit.record_failure (some .rolloutRateLimitErrorC) 5 = apiCircuit :=
  ⟨by decide, record_failure_excluded_noop apiCircuit .rolloutRateLimitErrorC 5 (by decide)⟩

/-- C6 (failing input): a call through call_mcp_tool blocked because the MCP
breaker is HALF_OPEN with its single trial slot occupied does change the
breaker: the RolloutCircuitOpenError raised on the blocked path reaches the
outer except handler, which records it as a failure and reopens the
circuit. -/
theorem blocked_mcp_call_changes_breaker :
    let b : CircuitBreaker :=
      { mcpCircuit with state := .HALF_OPEN, half_open_calls_in_progress := 1 }
    (callMcpTool b 7 "sync_tour_data").1 = false ∧
    b.state = .HALF_OPEN ∧
    (callMcpTool b 7 "sync_tour_data").2.state = .OPEN ∧
    (callMcpTool b 7 "sync_tour_data").2.last_failure_time = 7 ∧
    (callMcpTool b 7 "sync_tour_data").2 ≠ b := by
  decide

/-- C7 (failing input): record_circuit_state overwrites last_state_change
before computing the time spent OPEN, so a transition into OPEN at time 0
followed by a transition out of it at time 100 accumulates a
total_open_time of 0 rather than 100. -/
theorem total_open_time_stays_zero :
    let m1 : ApiMonitor := ApiMonitor.record_circuit_state emptyApiMonitor "cb" "OPEN" 3 0
    let m2 : ApiMonitor := ApiMonitor.record_circuit_state m1 "cb" "HALF_OPEN" 3 100
    (m2.circuit_stats "cb").map CircuitBreakerStats.total_open_time = some 0 ∧
    (m2.circuit_stats "cb").map CircuitBreakerStats.total_open_time ≠ some 100 ∧
    (m2.circuit_stats "cb").map CircuitBreakerStats.state_change_count = some 2 := by
  decide

/-- C9: across every breaker operation the half-open in-flight counter
either stays unchanged, or is incremented (which happens exactly on an
allow() in the HALF_OPEN state), or is reset to 0 by one of the transitions
HALF_OPEN to CLOSED, HALF_OPEN to OPEN, or OPEN to HALF_OPEN; moreover a
record_success in HALF_OPEN that has not yet reached half_open_max_calls
consecutive successes leaves the counter unchanged. -/
theorem half_open_in_flight_counter (b : CircuitBreaker) (s : BreakerStep)
    (now : Int) :
    ((b.step s now).half_open_calls_in_progress = b.half_open_calls_in_progress ∨
     ((b.step s now).half_open_calls_in_progress = b.half_open_calls_in_progress + 1 ∧
       s = .allow ∧ b.state = .HALF_OPEN) ∨
     ((b.step s now).half_open_calls_in_progress = 0 ∧
       ((b.state = .HALF_OPEN ∧ (b.step s now).state = .CLOSED) ∨
        (b.state = .HALF_OPEN ∧ (b.step s now).state = .OPEN) ∨
        (b.state = .OPEN ∧ (b.step s now).state = .HALF_OPEN)))) ∧
    (b.state = .HALF_OPEN → s = .success →
      b.successful_half_open_calls + 1 < b.half_open_max_calls →
      (b.step s now).half_open_calls_in_progress = b.half_open_calls_in_progress) := by
  constructor
  · cases s <;> cases hst : b.state <;>
      simp only [CircuitBreaker.step, CircuitBreaker.record_success,
        CircuitBreaker.record_failure, CircuitBreaker.allow_request, hst] <;>
      (try split_ifs) <;> simp [hst]
  · intro hst hs hlt
    subst hs
    simp only [CircuitBreaker.step, CircuitBreaker.record_success, hst]
    have : ¬ b.half_open_max_calls ≤ b.successful_half_open_calls + 1 := by omega
    simp [this]

/-- add_response_time written as a single conditional: evict the head and
subtract it exactly when the appended window exceeds 1000 entries. -/
lemma add_response_time_eq (s : ApiCallStats) (x : Int) :
    s.add_response_time x =
      if 1000 < s.response_times.length + 1 then
        { s with response_times := (s.response_times ++ [x]).tail,
                 total_response_time :=
                   s.total_response_time + x - (s.response_times ++ [x]).headI }
      else
        { s with response_times := s.response_times ++ [x],
                 total_response_time := s.total_response_time + x } := by
  unfold ApiCallStats.add_response_time
  cases hrt : s.response_times with
  | nil => simp
  | cons a l => simp

/-- add_response_time reads and writes only the window and the running
total, so it commutes with updating the success counter. -/
lemma add_response_time_success_count (s : ApiCallStats) (n : Nat) (x : Int) :
    ({ s with success_count := n } : ApiCallStats).add_response_time x
      = { s.add_response_time x with success_count := n } := by
  rw [add_response_time_eq, add_response_time_eq]
  have hrt : ({ s with success_count := n } : ApiCallStats).response_times
      = s.response_times := rfl
  rw [hrt]
  split <;> rfl

/-- add_response_time never touches the error counter. -/
lemma add_response_time_error_count (s : ApiCallStats) (x : Int) :
    (s.add_response_time x).error_count = s.error_count := by
  rw [add_response_time_eq]; split <;> rfl

/-- add_response_time never touches the retry counter. -/
lemma add_response_time_retry_count (s : ApiCallStats) (x : Int) :
    (s.add_response_time x).retry_count = s.retry_count := by
  rw [add_response_time_eq]; split <;> rfl

/-- Folding add_response_time over any input list keeps exactly the most
recent 1000 measurements in order and keeps the running total equal to
their sum. -/
lemma recordTimes_window (endpoint : String) (xs : List Int) :
    ((initApiCallStats endpoint).recordTimes xs).response_times
        = xs.drop (xs.length - 1000) ∧
    ((initApiCallStats endpoint).recordTimes xs).total_response_time
        = (xs.drop (xs.length - 1000)).sum := by
  induction xs using List.reverseRecOn with
  | nil => constructor <;> rfl
  | append_singleton xs x ih =>
    obtain ⟨iht, ihs⟩ := ih
    have hfold : (initApiCallStats endpoint).recordTimes (xs ++ [x])
        = ((initApiCallStats endpoint).recordTimes xs).add_response_time x := by
      simp [ApiCallStats.recordTimes]
    rw [hfold, add_response_time_eq, iht, ihs]
    by_cases hlen : xs.length < 1000
    · have h0 : xs.length - 1000 = 0 := by omega
      have h0' : (xs ++ [x]).length - 1000 = 0 := by simp; omega
      have hcond : ¬ 1000 < (xs.drop (xs.length - 1000)).length + 1 := by
        simp [List.length_drop]; omega
      rw [if_neg hcond, h0, h0']
      simp
    · push_neg at hlen
      have hdl : (xs.drop (xs.length - 1000)).length = 1000 := by
        simp [List.length_drop]; omega
      obtain ⟨a, l, hal⟩ : ∃ a l, xs.drop (xs.length - 1000) = a :: l := by
        cases hc : xs.drop (xs.length - 1000) with
        | nil => rw [hc] at hdl; simp at hdl
        | cons a l => exact ⟨a, l, rfl⟩
      have hcond : 1000 < (xs.drop (xs.length - 1000)).length + 1 := by omega
      rw [if_pos hcond, hal]
      have hidx : (xs ++ [x]).length - 1000 = (xs.length - 1000) + 1 := by
        simp; omega
      have hdropx : (xs ++ [x]).drop ((xs.length - 1000) + 1)
          = xs.drop ((xs.length - 1000) + 1) ++ [x] :=
        List.drop_append_of_le_length (by omega)
      have htail : xs.drop ((xs.length - 1000) + 1) = l := by
        have := List.drop_drop 1 (xs.length - 1000) xs
        rw [hal] at this
        simpa using this.symm
      rw [hidx, hdropx, htail]
      constructor
      · simp
      · simp [List.sum_append]
        ring

/-- C4: after recording any 1500 response times into a fresh ApiCallStats
entry, the window holds exactly 1000 entries, namely the most recent 1000
values in order, and the running total equals their sum. -/
theorem response_time_window_bounded (endpoint : String) (xs : List Int)
    (h : xs.length = 1500) :
    ((initApiCallStats endpoint).recordTimes xs).response_times.length = 1000 ∧
    ((initApiCallStats endpoint).recordTimes xs).response_times = xs.drop 500 ∧
    ((initApiCallStats endpoint).recordTimes xs).total_response_time
        = (xs.drop 500).sum := by
  obtain ⟨ht, hs⟩ := recordTimes_window endpoint xs
  rw [h] at ht hs
  norm_num at ht hs
  refine ⟨?_, ht, hs⟩
  rw [ht]
  simp [List.length_drop, h]

/-- Witness for C4: 1500 copies of the measurement 1. -/
theorem response_time_window_bounded_witness :
    (List.replicate 1500 (1 : Int)).length = 1500 ∧
    ((initApiCallStats "e").recordTimes
        (List.replicate 1500 (1 : Int))).response_times.length = 1000 :=
  ⟨by rw [List.length_replicate],
   (response_time_window_bounded "e" (List.replicate 1500 1)
     (by rw [List.length_replicate])).1⟩

/-- C8 (counterexample): a failed call is recorded without appending the
response time to the window — the claim that the response time is appended
whatever the success flag fails on success = false. -/
theorem record_call_error_no_append :
    let m := emptyApiMonitor.record_api_call "endpoint" false 5 2 7
    (m.api_stats "endpoint").map ApiCallStats.response_times = some [] ∧
    (m.api_stats "endpoint").map ApiCallStats.response_times ≠ some [5] ∧
    (m.api_stats "endpoint").map ApiCallStats.error_count = some 1 ∧
    (m.api_stats "endpoint").map ApiCallStats.retry_count = some 2 ∧
    (m.api_stats "endpoint").map ApiCallStats.last_called = some (some 7) := by
  decide

/-- C8 (amended): record_api_call increments the success counter and
appends the response time to the bounded window when success is true,
increments the error counter and leaves the window untouched when success
is false, and in both cases accumulates retries and stamps last_called. -/
theorem record_call_updates (m : ApiMonitor) (endpoint : String)
    (success : Bool) (response_time : Int) (retries : Nat) (now : Int) :
    let old := (m.api_stats endpoint).getD (initApiCallStats endpoint)
    let st := ((m.record_api_call endpoint success response_time retries
      now).api_stats endpoint).getD (initApiCallStats endpoint)
    ((m.record_api_call endpoint success response_time retries now).api_stats
        endpoint).isSome = true ∧
    st.success_count = old.success_count + (if success then 1 else 0) ∧
    st.error_count = old.error_count + (if success then 0 else 1) ∧
    st.response_times = (if success then
        (old.add_response_time response_time).response_times
      else old.response_times) ∧
    st.total_response_time = (if success then
        (old.add_response_time response_time).total_response_time
      else old.total_response_time) ∧
    st.retry_count = old.retry_count + retries ∧
    st.last_called = some now := by
  cases success <;>
    simp [ApiMonitor.record_api_call, add_response_time_success_count,
      add_response_time_error_count, add_response_time_retry_count]

/-- The delivery loop of _generate_and_send_alert invokes the handler of
every configured method, whatever the accumulated result. -/
lemma send_loop_invoked (fails : AlertMethod → Bool)
    (methods : List AlertMethod) (acc : Bool × List AlertMethod) :
    (methods.foldl (fun acc method =>
        if alertHandlerPresent method then
          (if fails method then false else acc.1, acc.2 ++ [method])
        else acc) acc).2 = acc.2 ++ methods := by
  induction methods generalizing acc with
  | nil => simp
  | cons m ms ih =>
    rw [List.foldl_cons, ih]
    simp [alertHandlerPresent]

/-- The delivery loop of _generate_and_send_alert reports success exactly
when no invoked handler raised. -/
lemma send_loop_success (fails : AlertMethod → Bool)
    (methods : List AlertMethod) (acc : Bool × List AlertMethod) :
    (methods.foldl (fun acc method =>
        if alertHandlerPresent method then
          (if fails method then false else acc.1, acc.2 ++ [method])
        else acc) acc).1 = (acc.1 && methods.all (fun m => !(fails m))) := by
  induction methods generalizing acc with
  | nil => simp
  | cons m ms ih =>
    rw [List.foldl_cons, ih]
    cases hf : fails m <;> simp [alertHandlerPresent, hf]

/-- _generate_and_send_alert invokes every configured method in order. -/
lemma generate_and_send_alert_invoked (mgr : AlertManager) (import_time : Int)
    (fails : AlertMethod → Bool) (config : AlertConfig) (alert_type : AlertType)
    (entity_id entity_type operation_type error operation_id : String)
    (details : List (String × String)) (new_id : String) (now : Int) :
    (mgr.generate_and_send_alert import_time fails config alert_type entity_id
      entity_type operation_type error operation_id details new_id
      now).invoked = config.methods := by
  simp only [AlertManager.generate_and_send_alert]
  simpa using send_loop_invoked fails config.methods (true, [])

/-- _generate_and_send_alert returns true exactly when every delivery
handler ran without raising. -/
lemma generate_and_send_alert_success (mgr : AlertManager) (import_time : Int)
    (fails : AlertMethod → Bool) (config : AlertConfig) (alert_type : AlertType)
    (entity_id entity_type operation_type error operation_id : String)
    (details : List (String × String)) (new_id : String) (now : Int) :
    (mgr.generate_and_send_alert import_time fails config alert_type entity_id
      entity_type operation_type error operation_id details new_id
      now).success = config.methods.all (fun m => !(fails m)) := by
  simp only [AlertManager.generate_and_send_alert]
  simpa using send_loop_success fails config.methods (true, [])

/-- Recording a failure count or timestamp does not change the configs. -/
lemma configs_record_update (mgr : AlertManager) (f : String → String → Nat)
    (g : String → String → List Int) :
    ({ mgr with failure_counts := f, failure_timestamps := g } :
      AlertManager).configs = mgr.configs := rfl

/-- The cooldown test reads only the configs and the cooldown stamps, which
the failure-recording updates leave untouched. -/
lemma is_in_cooldown_record_update (mgr : AlertManager)
    (f : String → String → Nat) (g : String → String → List Int)
    (entity_id : String) (alert_type : AlertType) (now : Int) :
    ({ mgr with failure_counts := f, failure_timestamps := g } :
        AlertManager).is_in_cooldown entity_id alert_type now
      = mgr.is_in_cooldown entity_id alert_type now := rfl

/-- When the classified config exists, is enabled, the entity is not in
cooldown, and the timestamps recorded up to and including this call meet
the threshold inside the window, record_operation_failure returns exactly
the delivery result of the alert. -/
lemma record_operation_failure_triggered (mgr : AlertManager)
    (import_time : Int) (fails : AlertMethod → Bool)
    (entity_id entity_type operation_type error operation_id : String)
    (details : List (String × String)) (new_id : String) (now : Int)
    (config : AlertConfig)
    (hcfg : mgr.configs (determine_alert_type error) = some config)
    (hen : config.enabled = true)
    (hcool : mgr.is_in_cooldown entity_id (determine_alert_type error) now = false)
    (hthr : config.threshold ≤
      ((mgr.failure_timestamps entity_id operation_type ++ [now]).filter
        (fun ts => now - (config.window_minutes : Int) * 60 ≤ ts)).length) :
    (mgr.record_operation_failure import_time fails entity_id entity_type
        operation_type error operation_id details new_id now).1
      = config.methods.all (fun m => !(fails m)) := by
  simp only [AlertManager.record_operation_failure, configs_record_update,
    hcfg, hen, is_in_cooldown_record_update, hcool,
    AlertManager.check_threshold_exceeded, upd2]
  simp at hthr
  simp [hthr, generate_and_send_alert_success]

/-- _generate_and_send_alert stamps the cooldown tracker of its entity and
alert type with the call time (line 427), before any delivery runs. -/
lemma generate_and_send_alert_stamp (mgr : AlertManager) (import_time : Int)
    (fails : AlertMethod → Bool) (config : AlertConfig) (alert_type : AlertType)
    (entity_id entity_type operation_type error operation_id : String)
    (details : List (String × String)) (new_id : String) (now : Int) :
    (mgr.generate_and_send_alert import_time fails config alert_type entity_id
      entity_type operation_type error operation_id details new_id
      now).mgr.alerted_entities entity_id alert_type.value = some now := by
  simp [AlertManager.generate_and_send_alert, upd2]

/-- Under the same trigger conditions, the alert is actually dispatched:
the cooldown tracker of the entity and classified alert type is stamped
with the call time. -/
lemma record_operation_failure_triggered_stamp (mgr : AlertManager)
    (import_time : Int) (fails : AlertMethod → Bool)
    (entity_id entity_type operation_type error operation_id : String)
    (details : List (String × String)) (new_id : String) (now : Int)
    (config : AlertConfig)
    (hcfg : mgr.configs (determine_alert_type error) = some config)
    (hen : config.enabled = true)
    (hcool : mgr.is_in_cooldown entity_id (determine_alert_type error) now = false)
    (hthr : config.threshold ≤
      ((mgr.failure_timestamps entity_id operation_type ++ [now]).filter
        (fun ts => now - (config.window_minutes : Int) * 60 ≤ ts)).length) :
    (mgr.record_operation_failure import_time fails entity_id entity_type
        operation_type error operation_id details new_id now).2.alerted_entities
        entity_id (determine_alert_type error).value = some now := by
  simp only [AlertManager.record_operation_failure, configs_record_update,
    hcfg, hen, is_in_cooldown_record_update, hcool,
    AlertManager.check_threshold_exceeded, upd2]
  simp at hthr
  simp [hthr, generate_and_send_alert_stamp]

/-- When the classified config exists and is enabled but the entity is in
cooldown for that alert type, record_operation_failure returns false. -/
lemma record_operation_failure_cooldown (mgr : AlertManager)
    (import_time : Int) (fails : AlertMethod → Bool)
    (entity_id entity_type operation_type error operation_id : String)
    (details : List (String × String)) (new_id : String) (now : Int)
    (config : AlertConfig)
    (hcfg : mgr.configs (determine_alert_type error) = some config)
    (hen : config.enabled = true)
    (hcool : mgr.is_in_cooldown entity_id (determine_alert_type error) now = true) :
    (mgr.record_operation_failure import_time fails entity_id entity_type
        operation_type error operation_id details new_id now).1 = false := by
  simp only [AlertManager.record_operation_failure, configs_record_update,
    hcfg, hen, is_in_cooldown_record_update, hcool]
  simp

/-- C2 (counterexample): a realizable trace.  The REPEATED_SYNC_FAILURE
config is updated through update_config to carry an email recipient
(threshold 3, methods LOG and EMAIL); the ambient SMTP send raises.  Three
failures trigger the alert on the third call: the LOG handler runs without
raising, the EMAIL handler (recipients nonempty, so past the early-return
guard) raises, and the call returns false even though the alert fired (the
cooldown stamp is set). -/
theorem delivery_failure_returns_false :
    let cfg : AlertConfig :=
      { enabled := true, type := .REPEATED_SYNC_FAILURE, level := .ERROR,
        threshold := 3, window_minutes := 60, methods := [.LOG, .EMAIL],
        recipients := ["ops@example.com"], cooldown_minutes := 30 }
    let mgr0 := (mkAlertManager.update_config .REPEATED_SYNC_FAILURE cfg).2
    let env : DeliveryEnv :=
      { smtp_send_fails := true, webhook_post_fails := false,
        slack_post_fails := false }
    let fails := handlerRaises env cfg.recipients
    let r1 := mgr0.record_operation_failure 0 fails "tour_1" "tour"
      "sync" "X" "op1" [] "a1" 0
    let r2 := r1.2.record_operation_failure 0 fails "tour_1" "tour"
      "sync" "X" "op2" [] "a2" 1
    let r3 := r2.2.record_operation_failure 0 fails "tour_1" "tour"
      "sync" "X" "op3" [] "a3" 2
    fails .LOG = false ∧
    fails .EMAIL = true ∧
    r3.1 = false ∧
    r3.2.alerted_entities "tour_1" "REPEATED_SYNC_FAILURE" = some 2 := by
  decide

/-- C2 (amended): a raised exception in one delivery method does not
prevent the remaining methods from being attempted (every configured
method is invoked) and the alert is dispatched (the cooldown stamp is
set), but record_operation_failure returns true only when every delivery
handler ran without raising; with any failing delivery realizable from the
handler bodies it returns false even though the alert was triggered. -/
theorem alert_delivery_independent (mgr : AlertManager) (import_time : Int)
    (env : DeliveryEnv)
    (entity_id entity_type operation_type error operation_id : String)
    (details : List (String × String)) (new_id : String) (now : Int)
    (config : AlertConfig)
    (hcfg : mgr.configs (determine_alert_type error) = some config)
    (hen : config.enabled = true)
    (hcool : mgr.is_in_cooldown entity_id (determine_alert_type error) now = false)
    (hthr : config.threshold ≤
      ((mgr.failure_timestamps entity_id operation_type ++ [now]).filter
        (fun ts => now - (config.window_minutes : Int) * 60 ≤ ts)).length) :
    (mgr.record_operation_failure import_time
        (handlerRaises env config.recipients) entity_id entity_type
        operation_type error operation_id details new_id now).1
      = config.methods.all (fun m => !(handlerRaises env config.recipients m)) ∧
    (mgr.record_operation_failure import_time
        (handlerRaises env config.recipients) entity_id entity_type
        operation_type error operation_id details new_id now).2.alerted_entities
        entity_id (determine_alert_type error).value = some now ∧
    ∀ (m2 : AlertManager) (id2 : String) (now2 : Int),
      (m2.generate_and_send_alert import_time
        (handlerRaises env config.recipients) config
        (determine_alert_type error) entity_id entity_type operation_type
        error operation_id details id2 now2).invoked = config.methods :=
  ⟨record_operation_failure_triggered mgr import_time
      (handlerRaises env config.recipients) entity_id entity_type
      operation_type error operation_id details new_id now config
      hcfg hen hcool hthr,
   record_operation_failure_triggered_stamp mgr import_time
      (handlerRaises env config.recipients) entity_id entity_type
      operation_type error operation_id details new_id now config
      hcfg hen hcool hthr,
   fun m2 id2 now2 => generate_and_send_alert_invoked m2 import_time
      (handlerRaises env config.recipients) config (determine_alert_type error)
      entity_id entity_type operation_type error operation_id details id2 now2⟩

/-- Witness for C2 (amended): the config carries an email recipient, the
manager holds two earlier sync failures for tour_1, and the SMTP send
raises; the third failure triggers the alert and the call returns the
all-deliveries-succeeded flag (false here). -/
theorem alert_delivery_independent_witness :
    (({ (mkAlertManager.update_config .REPEATED_SYNC_FAILURE
          { enabled := true, type := .REPEATED_SYNC_FAILURE, level := .ERROR,
            threshold := 3, window_minutes := 60, methods := [.LOG, .EMAIL],
            recipients := ["ops@example.com"], cooldown_minutes := 30 }).2 with
        failure_timestamps := fun a b =>
          if a = "tour_1" ∧ b = "sync" then [(0 : Int), 1] else [] } :
        AlertManager).record_operation_failure 0
        (handlerRaises
          { smtp_send_fails := true, webhook_post_fails := false,
            slack_post_fails := false } ["ops@example.com"])
        "tour_1" "tour" "sync" "X" "op3" [] "a3" 2).1
      = ([AlertMethod.LOG, AlertMethod.EMAIL]).all
          (fun m => !(handlerRaises
            { smtp_send_fails := true, webhook_post_fails := false,
              slack_post_fails := false } ["ops@example.com"] m)) :=
  (alert_delivery_independent _ 0
    { smtp_send_fails := true, webhook_post_fails := false,
      slack_post_fails := false }
    "tour_1" "tour" "sync" "X" "op3" [] "a3" 2
    { enabled := true, type := .REPEATED_SYNC_FAILURE, level := .ERROR,
      threshold := 3, window_minutes := 60, methods := [.LOG, .EMAIL],
      recipients := ["ops@example.com"], cooldown_minutes := 30 }
    (by decide) (by decide) (by decide) (by decide)).1

/-- Witness for C9: a HALF_OPEN breaker (max 2 trial calls, one in flight,
no successes yet) keeps its in-flight counter across a record_success that
does not reach the closing threshold. -/
theorem half_open_in_flight_counter_witness :
    (CircuitBreaker.step
      { mkCircuitBreaker "cb" 3 10 2 [] with
          state := .HALF_OPEN, half_open_calls_in_progress := 1 }
      .success 0).half_open_calls_in_progress =
    ({ mkCircuitBreaker "cb" 3 10 2 [] with
        state := .HALF_OPEN, half_open_calls_in_progress := 1 } :
      CircuitBreaker).half_open_calls_in_progress :=
  (half_open_in_flight_counter _ .success 0).2 rfl rfl (by decide)

/-! ### The C5 scenario: customized REPEATED_SYNC_FAILURE config -/

/-- The REPEATED_SYNC_FAILURE config of the C5 scenario: threshold 3,
window 60 minutes, cooldown 5 minutes. -/
def c5Config : AlertConfig :=
  { enabled := true, type := .REPEATED_SYNC_FAILURE, level := .ERROR,
    threshold := 3, window_minutes := 60, methods := [.LOG, .EMAIL],
    recipients := [], cooldown_minutes := 5 }

/-- An AlertManager whose REPEATED_SYNC_FAILURE config is c5Config and
whose other configs are the defaults. -/
def c5Manager : AlertManager :=
  { mkAlertManager with configs := fun t =>
      if t = .REPEATED_SYNC_FAILURE then some c5Config else defaultAlertConfigs t }

/-- Delivery model for the C5 scenario: no handler raises (with the default
empty recipients, the EMAIL handler logs a warning and returns). -/
def c5NoFails : AlertMethod → Bool := fun _ => false

/-- One recordOperationFailure call of the C5 scenario for entity tour_1,
entity type tour, operation type sync. -/
def c5Step (m : AlertManager) (error operation_id new_id : String) (t : Int) :
    Bool × AlertManager :=
  m.record_operation_failure 0 c5NoFails "tour_1" "tour" "sync" error
    operation_id [] new_id t

/-- The state after the third failure call of the C5 scenario, recorded at
times 0, 1 and 2 seconds. -/
def c5R3 : Bool × AlertManager :=
  c5Step (c5Step (c5Step c5Manager "API Connection Timeout" "op1" "a1" 0).2
    "API Connection Timeout" "op2" "a2" 1).2 "API Connection Timeout" "op3" "a3" 2

/-- C5 (counterexample): one second after the third call triggered the
REPEATED_SYNC_FAILURE alert, a fourth call for the same entity and
operation whose error text mentions a rate limit is classified as
RATE_LIMIT_CRITICAL, escapes the per-alert-type cooldown, meets that
config's threshold of 2, and returns true — not false as the claim states
for every error text. -/
theorem fourth_call_rate_limit_alerts :
    (c5Step c5R3.2 "rate limit exceeded" "op4" "a4" 3).1 = true ∧
    ((3 : Int) - 2 < 5 * 60) := by
  decide

/-- C5 (amended): the third call returns true, and a fourth call for the
same entity and operation within the 5-minute cooldown returns false
whenever its error text is classified as REPEATED_SYNC_FAILURE; an error
text classified as another alert type may alert and return true. -/
theorem repeated_failure_alert_cooldown :
    c5R3.1 = true ∧
    ∀ (error4 : String) (t4 : Int),
      determine_alert_type error4 = .REPEATED_SYNC_FAILURE →
      t4 - 2 < 300 →
      (c5Step c5R3.2 error4 "op4" "a4" t4).1 = false := by
  constructor
  · decide
  · intro error4 t4 h1 h2
    unfold c5Step
    apply record_operation_failure_cooldown _ _ _ _ _ _ _ _ _ _ _ c5Config
    · rw [h1]; decide
    · rfl
    · rw [h1]
      simp only [AlertManager.is_in_cooldown]
      have ha : c5R3.2.alerted_entities "tour_1"
          (AlertType.REPEATED_SYNC_FAILURE).value = some 2 := by decide
      have hb : c5R3.2.configs .REPEATED_SYNC_FAILURE = some c5Config := by decide
      rw [ha, hb]
      simpa using h2

/-- Witness for C5 (amended): the fourth call with the original error text
at time 2 (inside the cooldown) returns false. -/
theorem repeated_failure_alert_cooldown_witness :
    (c5Step c5R3.2 "API Connection Timeout" "op4" "a4" 2).1 = false :=
  repeated_failure_alert_cooldown.2 "API Connection Timeout" 2
    (by decide) (by decide)

/-- C10: two alert events generated at different wall-clock instants carry
the identical timestamp import_time (the AlertEvent.timestamp default is
evaluated once, when the class body is executed at import), while the
cooldown tracker is stamped with the actual current time of each call. -/
theorem alert_event_timestamp_fixed (mgr mgr2 : AlertManager)
    (import_time : Int) (fails fails2 : AlertMethod → Bool)
    (config config2 : AlertConfig) (t t2 : AlertType)
    (eid ety opty eid2 ety2 opty2 : String) (error error2 : String)
    (opid opid2 : String) (details details2 : List (String × String))
    (id1 id2 : String) (now1 now2 : Int) :
    let o1 := mgr.generate_and_send_alert import_time fails config t eid ety
      opty error opid details id1 now1
    let o2 := mgr2.generate_and_send_alert import_time fails2 config2 t2 eid2
      ety2 opty2 error2 opid2 details2 id2 now2
    o1.event.timestamp = o2.event.timestamp ∧
    o1.event.timestamp = import_time ∧
    o1.mgr.alerted_entities eid t.value = some now1 ∧
    o2.mgr.alerted_entities eid2 t2.value = some now2 := by
  refine ⟨rfl, rfl, ?_, ?_⟩ <;>
    simp [AlertManager.generate_and_send_alert, upd2]
